import Mathlib

/-!
Verification of the rstream client's session/connection core, shallowly embedded
from `src/client/src/stream/` (`connection.c`, `input.h`, `status.h`,
`stream_app.c`, `thread.c`/`thread.h`).

Machine integers are modelled as `Nat` with explicit `% 2^w` where the C code
truncates; pointers are modelled as `Option` values together with explicit
liveness flags, so that use-after-free in the C code shows up as an explicit
error value of the embedded function.
-/

namespace RStream

/-! ## Input model (`input.h`) -/

/-- The `InputType` enum from `input.h` (underlying type `uint8_t`, values 0..21
in declaration order). -/
inductive InputType where
  | CursorLeftDown
  | CursorLeftUp
  | CursorLeftClick
  | CursorRightClick
  | CursorMove
  | CursorScroll
  | GamepadButtonX
  | GamepadButtonY
  | GamepadButtonA
  | GamepadButtonB
  | GamepadButtonL1
  | GamepadButtonR1
  | GamepadButtonL2
  | GamepadButtonR2
  | GamepadUp
  | GamepadDown
  | GamepadLeft
  | GamepadRight
  | GamepadLeftStick
  | GamepadRightStick
  | GamepadButtonStart
  | GamepadButtonSelect
  deriving DecidableEq, Fintype, Repr

/-- Numeric tag of each `InputType` constant, per the C enum (first value 0, then
successive increments). -/
def InputType.tag : InputType → Nat
  | .CursorLeftDown => 0
  | .CursorLeftUp => 1
  | .CursorLeftClick => 2
  | .CursorRightClick => 3
  | .CursorMove => 4
  | .CursorScroll => 5
  | .GamepadButtonX => 6
  | .GamepadButtonY => 7
  | .GamepadButtonA => 8
  | .GamepadButtonB => 9
  | .GamepadButtonL1 => 10
  | .GamepadButtonR1 => 11
  | .GamepadButtonL2 => 12
  | .GamepadButtonR2 => 13
  | .GamepadUp => 14
  | .GamepadDown => 15
  | .GamepadLeft => 16
  | .GamepadRight => 17
  | .GamepadLeftStick => 18
  | .GamepadRightStick => 19
  | .GamepadButtonStart => 20
  | .GamepadButtonSelect => 21

/-- The packed `InputCommand` struct from `input.h`:
`uint8_t type; uint32_t data0; uint32_t data1;` under `#pragma pack(push, 1)`.
Field values are the raw bit patterns, kept as `Nat` below their width. -/
structure InputCommand where
  type : Nat
  data0 : Nat
  data1 : Nat
  deriving DecidableEq, Repr

/-- `sizeof(InputCommand)` with `#pragma pack(1)`: one `uint8_t` plus two
`uint32_t` with no padding.  This is the `COMMAND_SIZE` constant of
`connection.c`. -/
def COMMAND_SIZE : Nat := 1 + 4 + 4

/-- Building the command in `my_connection_send_input_event`: `cmd.type = type`
(an `int` stored into a `uint8_t` field truncates) and `memcpy` of the raw
32-bit patterns of `x` and `y` into `data0`/`data1`. -/
def mkInputCommand (type xBits yBits : Nat) : InputCommand :=
  { type := type % 256, data0 := xBits % 4294967296, data1 := yBits % 4294967296 }

/-- The two ENet packet flags used by `connection.c`:
`ENET_PACKET_FLAG_RELIABLE` and `ENET_PACKET_FLAG_UNSEQUENCED`. -/
inductive ENetPacketFlag where
  | reliable
  | unsequenced
  deriving DecidableEq, Repr

/-- An ENet packet as created by `enet_packet_create(buffer, COMMAND_SIZE, flag)`:
its payload bytes and its reliability flag. -/
structure ENetPacket where
  data : List Nat
  flag : ENetPacketFlag
  deriving DecidableEq, Repr

/-- Reliability classification in `my_connection_send_input_command_via_enet`:
the flag starts as `ENET_PACKET_FLAG_RELIABLE` and is switched to
`ENET_PACKET_FLAG_UNSEQUENCED` exactly when
`input_data->type == CursorMove || input_data->type == GamepadLeftStick ||
input_data->type == GamepadRightStick`. -/
def input_packet_flag (type : Nat) : ENetPacketFlag :=
  if type = InputType.tag .CursorMove ∨ type = InputType.tag .GamepadLeftStick ∨
      type = InputType.tag .GamepadRightStick then
    ENetPacketFlag.unsequenced
  else
    ENetPacketFlag.reliable

/-- The four bytes of a `uint32_t` as laid down by `memcpy` on a little-endian
host (the source comments: "We assume ARM/Android is Little-Endian, so raw copy
is sufficient"). -/
def u32_le_bytes (v : Nat) : List Nat :=
  [v % 256, v / 256 % 256, v / 65536 % 256, v / 16777216 % 256]

/-- The manual serialization loop of `my_connection_send_input_command_via_enet`:
`buffer[0] = input_data->type`, then raw copies of `data0` and `data1`;
`offset` ends at `1 + 4 + 4`. -/
def serializeInputCommand (cmd : InputCommand) : List Nat :=
  cmd.type % 256 :: (u32_le_bytes cmd.data0 ++ u32_le_bytes cmd.data1)

/-- Packet construction in `my_connection_send_input_command_via_enet`: the
packet is created only when `offset == COMMAND_SIZE` (otherwise the function
just logs "Wrong command size"); allocation is modelled as succeeding. -/
def input_command_packet (cmd : InputCommand) : Option ENetPacket :=
  let buffer := serializeInputCommand cmd
  if buffer.length = COMMAND_SIZE then
    some { data := buffer, flag := input_packet_flag cmd.type }
  else
    none

/-- The packet produced by `my_connection_send_input_event` for raw event data
`(type, xBits, yBits)` (the two floats entering as their 32-bit patterns). -/
def my_connection_send_input_event_packet (type xBits yBits : Nat) : Option ENetPacket :=
  input_command_packet (mkInputCommand type xBits yBits)

/-- Reading a `uint32_t` back from four little-endian bytes; this inverts the
raw copy that produced bytes 1-4 and 5-8 of the packet. -/
def u32_from_le_bytes : List Nat → Nat
  | [b0, b1, b2, b3] => b0 + 256 * b1 + 65536 * b2 + 16777216 * b3
  | _ => 0

/-! ## Status model (`status.h`, `conn_update_status`) -/

/-- The `my_status` enum from `status.h`. -/
inductive MyStatus where
  | idleNotConnected
  | connecting
  | websocketFailed
  | negotiating
  | connectedNoData
  | connected
  | disconnectedError
  | disconnectedRemoteClose
  deriving DecidableEq, Fintype, Repr

/-- `conn_update_status` from `connection.c`: if the requested status equals the
current one it only logs ("already in ...") and leaves the status alone,
otherwise it logs the change and assigns the requested status.  Returns the new
status and whether a change happened. -/
def conn_update_status (current requested : MyStatus) : MyStatus × Bool :=
  if requested = current then
    (current, false)
  else
    (requested, true)

/-! ## Frame exchange (`stream_app.c`) -/

/-- The sample-slot portion of `struct _StreamApp`: the `appsink` element
pointer (null until the pipeline is built), the single `GstSample *sample` slot
guarded by `sample_mutex`, the decode-end timestamp taken when a sample
arrives, and the `received_first_frame` flag.  `F` is the opaque frame type. -/
structure FrameSlotState (F : Type) where
  appsink : Bool
  sample : Option F
  sample_decode_end_ts : Nat
  received_first_frame : Bool
  deriving DecidableEq, Repr

/-- `on_new_sample_cb`: under `sample_mutex`, remember the previous slot
content, store the freshly pulled sample together with its arrival timestamp,
and mark the first frame received; the replaced previous sample (if any) is
unreffed ("Discarding unused, replaced sample") — it is returned here as the
discarded frame. -/
def on_new_sample_cb {F : Type} (app : FrameSlotState F) (sample : F) (ts : Nat) :
    FrameSlotState F × Option F :=
  ({ appsink := app.appsink
     sample := some sample
     sample_decode_end_ts := ts
     received_first_frame := true },
   app.sample)

/-- `stream_app_try_pull_sample`: returns null when `appsink` is not set up yet;
otherwise, under `sample_mutex`, takes the slot content (setting the slot to
null) along with the decode-end timestamp, and returns null when the slot was
empty.  (The EOS probe on the empty path has no effect and is omitted.) -/
def stream_app_try_pull_sample {F : Type} (app : FrameSlotState F) :
    FrameSlotState F × Option (F × Nat) :=
  if app.appsink = false then
    (app, none)
  else
    let taken := app.sample
    let app2 : FrameSlotState F := { app with sample := none }
    match taken with
    | none => (app2, none)
    | some f => (app2, some (f, app.sample_decode_end_ts))

/-- An operation on the frame slot: a producer publish (the appsink callback
firing with a new decoded sample) or a consumer pull. -/
inductive SlotOp (F : Type) where
  | publish (f : F) (ts : Nat)
  | tryPull
  deriving DecidableEq, Repr

/-- Run a sequence of slot operations, collecting every frame a pull returned. -/
def runSlotOps {F : Type} : FrameSlotState F → List (SlotOp F) → FrameSlotState F × List F
  | app, [] => (app, [])
  | app, SlotOp.publish f ts :: rest => runSlotOps (on_new_sample_cb app f ts).1 rest
  | app, SlotOp.tryPull :: rest =>
      let r := stream_app_try_pull_sample app
      let r2 := runSlotOps r.1 rest
      (r2.1, (r.2.map Prod.fst).toList ++ r2.2)

/-! ## Connection state machine (`connection.c`) -/

/-- Undefined behaviour / process aborts that the embedded connection
operations can run into.  Each constructor marks a concrete unsafe call site in
`connection.c`. -/
inductive UB where
  /-- `enet_peer_disconnect` / `enet_peer_reset` on a peer whose host was
  already destroyed by a previous disconnect. -/
  | peerOfDestroyedHost
  /-- `g_async_queue_unref` dropping the last reference of a queue that was
  already destroyed. -/
  | queueDoubleUnref
  /-- `g_async_queue_push` onto a queue that was already destroyed. -/
  | queuePushAfterFree
  /-- A failed `g_assert` (aborts the process). -/
  | assertFailed
  deriving DecidableEq, Repr

instance {ε α : Type} [DecidableEq ε] [DecidableEq α] : DecidableEq (Except ε α) :=
  fun x y =>
    match x, y with
    | Except.error a, Except.error b =>
        if h : a = b then Decidable.isTrue (congrArg Except.error h)
        else Decidable.isFalse (fun hh => h (Except.error.inj hh))
    | Except.error _, Except.ok _ => Decidable.isFalse (fun hh => Except.noConfusion hh)
    | Except.ok _, Except.error _ => Decidable.isFalse (fun hh => Except.noConfusion hh)
    | Except.ok a, Except.ok b =>
        if h : a = b then Decidable.isTrue (congrArg Except.ok h)
        else Decidable.isFalse (fun hh => h (Except.ok.inj hh))

/-- Observable actions of the connection code, in emission order: the GObject
signals it emits, the websocket operations it issues, and the status changes
`conn_update_status` logs. -/
inductive ConnEvent where
  | onDropPipeline
  | onNeedPipeline
  | websocketConnected
  | websocketFailed
  | websocketClose
  | websocketConnectAsync
  | pipelineSetPlaying
  | statusSet (st : MyStatus)
  deriving DecidableEq, Repr

/-- The fields of `struct _MyConnection` the claims depend on.  Pointer fields
are `Option`s; `clientAlive`/`queueAlive` record whether the ENet host and the
packet queue pointed to are still live (the C code never nulls `peer`,
`client` or `packet_queue` after tearing them down). -/
structure MyConnection where
  ws_cancel : Option Unit
  ws : Option Unit
  pipeline : Option Nat
  status : MyStatus
  peer : Option Unit
  clientAlive : Bool
  packet_queue : Option Unit
  queueAlive : Bool
  queueContents : List ENetPacket
  enetThreadRunning : Bool
  deriving DecidableEq, Repr

/-- A fresh handle as produced by `my_connection_new`: `g_object_new` zeroes the
struct, `my_connection_init` then creates the cancellable; the thread helper is
initialized but not running. -/
def my_connection_init : MyConnection :=
  { ws_cancel := some ()
    ws := none
    pipeline := none
    status := MyStatus.idleNotConnected
    peer := none
    clientAlive := false
    packet_queue := none
    queueAlive := false
    queueContents := []
    enetThreadRunning := false }

/-- Modelled from the spec: `os_thread_helper_stop` is declared in `thread.h`
but its body is absent from the sources (`thread.c` defines only `init` and
`start`).  Per its doc comment and spec section 4.3 it signals the worker to
exit its loop and joins it, and is safe to call when no worker was started. -/
def os_thread_helper_stop (running : Bool) : Bool :=
  false && running

/-- `my_connection_set_pipeline`: asserts the argument non-null, stops any old
pipeline, and stores the new one. -/
def my_connection_set_pipeline (conn : MyConnection) (pipeline : Nat) : MyConnection :=
  { conn with pipeline := some pipeline }

/-- `my_connection_disconnect`, step by step from the source: cancel and clear
the cancellable if present; unconditionally emit `on-drop-pipeline`; close and
clear the websocket if present; `conn_update_status(IDLE_NOT_CONNECTED)`; then,
if `conn->peer` is non-null, `enet_peer_disconnect` + `enet_peer_reset` (these
touch the peer's host, so the host must still be live), stop the ENet thread,
`g_async_queue_unref` the packet queue (destroying it), `enet_host_destroy` the
client.  None of `peer`, `client`, `packet_queue` is set back to null. -/
def my_connection_disconnect (conn : MyConnection) : Except UB (MyConnection × List ConnEvent) :=
  let c1 : MyConnection := { conn with ws_cancel := none }
  let evClose : List ConnEvent := if c1.ws.isSome then [ConnEvent.websocketClose] else []
  let c2 : MyConnection := { c1 with ws := none }
  let upd := conn_update_status c2.status MyStatus.idleNotConnected
  let evStatus : List ConnEvent := if upd.2 then [ConnEvent.statusSet upd.1] else []
  let c3 : MyConnection := { c2 with status := upd.1 }
  let evs : List ConnEvent := ConnEvent.onDropPipeline :: (evClose ++ evStatus)
  if c3.peer.isSome then
    if c3.clientAlive = false then
      Except.error UB.peerOfDestroyedHost
    else if c3.queueAlive = false then
      Except.error UB.queueDoubleUnref
    else
      Except.ok
        ({ c3 with
            enetThreadRunning := os_thread_helper_stop c3.enetThreadRunning
            queueAlive := false
            queueContents := []
            clientAlive := false },
         evs)
  else
    Except.ok (c3, evs)

/-- `my_connection_connect`: first "Reset previous connection" via
`my_connection_disconnect`; recreate/reset the cancellable; call
`soup_session_websocket_connect_async`; `conn_update_status(CONNECTING)`; then
create the ENet client host, initiate the peer connection, create the packet
queue and start the ENet worker thread.  (Host/peer allocation failures call
`exit` and are modelled as succeeding.) -/
def my_connection_connect (conn : MyConnection) : Except UB (MyConnection × List ConnEvent) :=
  match my_connection_disconnect conn with
  | Except.error e => Except.error e
  | Except.ok (c1, evs1) =>
    let c2 : MyConnection := { c1 with ws_cancel := some () }
    let upd := conn_update_status c2.status MyStatus.connecting
    let evStatus : List ConnEvent := if upd.2 then [ConnEvent.statusSet upd.1] else []
    let c3 : MyConnection := { c2 with status := upd.1 }
    let c4 : MyConnection :=
      { c3 with
          peer := some ()
          clientAlive := true
          packet_queue := some ()
          queueAlive := true
          queueContents := []
          enetThreadRunning := true }
    Except.ok (c4, evs1 ++ (ConnEvent.websocketConnectAsync :: evStatus))

/-- Outcome of the async websocket connect as seen by the completion callback:
`soup_session_websocket_connect_finish` either yields a connection or sets the
error out-parameter. -/
inductive WsConnectResult where
  | success
  | failure
  deriving DecidableEq, Repr

/-- `conn_websocket_connected_cb`.  `g_assert(!conn->ws)` first.  On error:
log, emit `websocket-failed`, and return — the `conn_update_status(...,
MY_STATUS_WEBSOCKET_FAILED)` call is commented out in the source, so the status
field is not touched.  On success: store the websocket, emit
`websocket-connected`, assert `conn->pipeline` null, emit `on-need-pipeline`
(whose handler may call `my_connection_set_pipeline`; `attach` models what the
handler attaches); if no pipeline was attached, log and call
`my_connection_disconnect`; otherwise set the pipeline state to PLAYING. -/
def conn_websocket_connected_cb (res : WsConnectResult) (attach : Option Nat)
    (conn : MyConnection) : Except UB (MyConnection × List ConnEvent) :=
  if conn.ws.isSome then
    Except.error UB.assertFailed
  else
    match res with
    | WsConnectResult.failure =>
        Except.ok (conn, [ConnEvent.websocketFailed])
    | WsConnectResult.success =>
        let c1 : MyConnection := { conn with ws := some () }
        if c1.pipeline.isSome then
          Except.error UB.assertFailed
        else
          let c2 : MyConnection :=
            match attach with
            | some p => my_connection_set_pipeline c1 p
            | none => c1
          if c2.pipeline.isNone then
            match my_connection_disconnect c2 with
            | Except.error e => Except.error e
            | Except.ok (c3, evs3) =>
                Except.ok (c3, ConnEvent.websocketConnected :: ConnEvent.onNeedPipeline :: evs3)
          else
            Except.ok (c2,
              [ConnEvent.websocketConnected, ConnEvent.onNeedPipeline,
               ConnEvent.pipelineSetPlaying])

/-- Whether an input command got onto the outbound queue or was discarded. -/
inductive SendOutcome where
  | queued
  | dropped
  deriving DecidableEq, Repr

/-- `my_connection_send_input_command_via_enet` at the connection level: build
the packet (flag, manual serialization, `offset == COMMAND_SIZE` check) and
`g_async_queue_push(conn->packet_queue, packet)`.  A null queue makes
`g_async_queue_push` fail its `g_return_if_fail` (a logged no-op, the command is
dropped); pushing onto a destroyed queue is a use-after-free. -/
def my_connection_send_input_command_via_enet (conn : MyConnection) (cmd : InputCommand) :
    Except UB (MyConnection × SendOutcome) :=
  match input_command_packet cmd with
  | none => Except.ok (conn, SendOutcome.dropped)
  | some packet =>
      match conn.packet_queue with
      | none => Except.ok (conn, SendOutcome.dropped)
      | some _ =>
          if conn.queueAlive then
            Except.ok ({ conn with queueContents := conn.queueContents ++ [packet] },
              SendOutcome.queued)
          else
            Except.error UB.queuePushAfterFree

/-- `my_connection_send_input_event`: zero-initialize an `InputCommand`, store
the type and the raw bit patterns of `x` and `y`, and hand it to
`my_connection_send_input_command_via_enet`. -/
def my_connection_send_input_event (conn : MyConnection) (type xBits yBits : Nat) :
    Except UB (MyConnection × SendOutcome) :=
  my_connection_send_input_command_via_enet conn (mkInputCommand type xBits yBits)

/-- Sequence two connection operations, concatenating their event logs. -/
def connStep (r : Except UB (MyConnection × List ConnEvent))
    (f : MyConnection → Except UB (MyConnection × List ConnEvent)) :
    Except UB (MyConnection × List ConnEvent) :=
  match r with
  | Except.error e => Except.error e
  | Except.ok (c, evs) =>
      match f c with
      | Except.error e => Except.error e
      | Except.ok (c2, evs2) => Except.ok (c2, evs ++ evs2)

/-- The connection state an operation ended in, if it did not hit UB. -/
def connAfter {α : Type} (r : Except UB (MyConnection × α)) : Option MyConnection :=
  match r with
  | Except.ok (c, _) => some c
  | Except.error _ => none

/-- The status an operation ended in, if it did not hit UB. -/
def statusAfter {α : Type} (r : Except UB (MyConnection × α)) : Option MyStatus :=
  (connAfter r).map MyConnection.status

/-- The events an operation emitted, if it did not hit UB. -/
def eventsAfter (r : Except UB (MyConnection × List ConnEvent)) : Option (List ConnEvent) :=
  match r with
  | Except.ok (_, evs) => some evs
  | Except.error _ => none

/-- Run a second operation on the state a first one ended in, reporting only
the second operation's events. -/
def afterOk (r : Except UB (MyConnection × List ConnEvent))
    (f : MyConnection → Except UB (MyConnection × List ConnEvent)) :
    Except UB (MyConnection × List ConnEvent) :=
  match r with
  | Except.error e => Except.error e
  | Except.ok (c, _) => f c

/-! ## General lemmas -/

theorem conn_update_status_fst (current requested : MyStatus) :
    (conn_update_status current requested).1 = requested := by
  unfold conn_update_status
  split
  · simp_all
  · rfl

/-- Any frame a pull ever returns along a run was either sitting in the slot at
the start or was published during the run. -/
theorem runSlotOps_take_sources {F : Type} (ops : List (SlotOp F)) (s : FrameSlotState F)
    (f : F) (h : f ∈ (runSlotOps s ops).2) :
    s.sample = some f ∨ ∃ ts, SlotOp.publish f ts ∈ ops := by
  induction ops generalizing s with
  | nil => simp [runSlotOps] at h
  | cons op rest ih =>
    cases op with
    | publish g ts =>
        simp only [runSlotOps] at h
        rcases ih _ h with h1 | ⟨ts2, h2⟩
        · simp only [on_new_sample_cb, Option.some.injEq] at h1
          subst h1
          exact Or.inr ⟨ts, List.mem_cons_self _ _⟩
        · exact Or.inr ⟨ts2, List.mem_cons_of_mem _ h2⟩
    | tryPull =>
        simp only [runSlotOps] at h
        rcases List.mem_append.mp h with h1 | h2
        · by_cases ha : s.appsink = false
          · simp [stream_app_try_pull_sample, ha] at h1
          · cases hs : s.sample with
            | none => simp [stream_app_try_pull_sample, ha, hs] at h1
            | some g =>
                simp [stream_app_try_pull_sample, ha, hs] at h1
                subst h1
                exact Or.inl rfl
        · rcases ih _ h2 with h3 | ⟨ts2, h4⟩
          · by_cases ha : s.appsink = false
            · simp only [stream_app_try_pull_sample, ha, if_pos] at h3
              exact Or.inl h3
            · exfalso
              cases hs : s.sample <;>
                simp [stream_app_try_pull_sample, ha, hs] at h3
          · exact Or.inr ⟨ts2, List.mem_cons_of_mem _ h4⟩

/-! ## Claim C1 -/

/-- C1 counterexample: the claim says the encoded packet has exactly 12 bytes,
but `sizeof(InputCommand)` under `#pragma pack(1)` is 9, and the packet built
for the concrete input `(kind 0, a = 0, b = 0)` has 9 bytes, not 12. -/
theorem input_packet_is_nine_bytes_not_twelve :
    my_connection_send_input_event_packet 0 0 0 =
      some { data := [0, 0, 0, 0, 0, 0, 0, 0, 0], flag := ENetPacketFlag.reliable } ∧
    ([0, 0, 0, 0, 0, 0, 0, 0, 0] : List Nat).length ≠ 12 := by
  decide

/-- C1 (amended): for every input event `(kind, a, b)` (the kind tag below 256
and the two raw 32-bit patterns), the encoding of
`my_connection_send_input_event` / `my_connection_send_input_command_via_enet`
produces a packet of exactly `COMMAND_SIZE = 9` bytes with no padding, whose
byte 0 is the kind tag, whose bytes 1-4 are the raw bit pattern of `a` and
bytes 5-8 the raw bit pattern of `b`, so that decoding bytes 1-8 recovers `a`
and `b` bit-exactly. -/
theorem send_input_event_encodes_nine_bytes_roundtrip (type xBits yBits : Nat)
    (ht : type < 256) (hx : xBits < 4294967296) (hy : yBits < 4294967296) :
    ∃ p : ENetPacket,
      my_connection_send_input_event_packet type xBits yBits = some p ∧
      p.data.length = COMMAND_SIZE ∧
      COMMAND_SIZE = 9 ∧
      p.data.head? = some type ∧
      u32_from_le_bytes ((p.data.drop 1).take 4) = xBits ∧
      u32_from_le_bytes ((p.data.drop 1).drop 4) = yBits := by
  refine ⟨_, rfl, ?_, rfl, ?_, ?_, ?_⟩ <;>
    simp [my_connection_send_input_event_packet, input_command_packet, serializeInputCommand,
      u32_le_bytes, mkInputCommand, u32_from_le_bytes, COMMAND_SIZE] <;>
    omega

/-- C1 witness: the amended encoding theorem applied at the concrete event
`(kind 4, a = bits of 1.0f, b = bits of -1.5f)`. -/
theorem send_input_event_encodes_nine_bytes_roundtrip_witness :
    (4 : Nat) < 256 ∧ (1065353216 : Nat) < 4294967296 ∧ (3217031168 : Nat) < 4294967296 ∧
    ∃ p : ENetPacket,
      my_connection_send_input_event_packet 4 1065353216 3217031168 = some p ∧
      p.data.length = COMMAND_SIZE ∧
      COMMAND_SIZE = 9 ∧
      p.data.head? = some 4 ∧
      u32_from_le_bytes ((p.data.drop 1).take 4) = 1065353216 ∧
      u32_from_le_bytes ((p.data.drop 1).drop 4) = 3217031168 :=
  ⟨by norm_num, by norm_num, by norm_num,
    send_input_event_encodes_nine_bytes_roundtrip 4 1065353216 3217031168
      (by norm_num) (by norm_num) (by norm_num)⟩

/-! ## Claim C2 -/

/-- C2 counterexample: the claim places cursor scroll among the
unreliable/unsequenced kinds, but the packet built for a `CursorScroll` command
carries the reliable flag. -/
theorem cursor_scroll_packet_flag_is_reliable :
    (my_connection_send_input_event_packet (InputType.tag InputType.CursorScroll) 0 0).map
        ENetPacket.flag = some ENetPacketFlag.reliable ∧
    ¬ ((my_connection_send_input_event_packet (InputType.tag InputType.CursorScroll) 0 0).map
        ENetPacket.flag = some ENetPacketFlag.unsequenced) := by
  decide

/-- C2 (amended): for every input kind, the packet's reliability flag is
unsequenced exactly when the kind is cursor move, gamepad left stick or gamepad
right stick; every other kind — cursor scroll included — is sent reliable. -/
theorem input_flag_unsequenced_iff_move_or_sticks :
    ∀ t : InputType,
      ((my_connection_send_input_event_packet t.tag 0 0).map ENetPacket.flag =
          some ENetPacketFlag.unsequenced) ↔
        (t = InputType.CursorMove ∨ t = InputType.GamepadLeftStick ∨
          t = InputType.GamepadRightStick) := by
  decide

/-! ## Claim C5 -/

/-- C5: publishing `f1` and then `f2` into the slot without an intervening pull
makes the second publish discard (release) `f1` without blocking; exactly one
subsequent pull returns `f2` together with its arrival timestamp (the pull
after it returns empty); and no pull — then or later — ever returns `f1`, as
long as `f1` is not published again. -/
theorem frame_slot_drop_oldest {F : Type} (s : FrameSlotState F) (f1 f2 : F) (t1 t2 : Nat)
    (happ : s.appsink = true) (hne : f1 ≠ f2) :
    (on_new_sample_cb (on_new_sample_cb s f1 t1).1 f2 t2).2 = some f1 ∧
    (stream_app_try_pull_sample ((on_new_sample_cb (on_new_sample_cb s f1 t1).1 f2 t2).1)).2 =
      some (f2, t2) ∧
    (stream_app_try_pull_sample
        (stream_app_try_pull_sample
          ((on_new_sample_cb (on_new_sample_cb s f1 t1).1 f2 t2).1)).1).2 = none ∧
    ∀ ops : List (SlotOp F), (∀ ts, SlotOp.publish f1 ts ∉ ops) →
      f1 ∉ (runSlotOps ((on_new_sample_cb (on_new_sample_cb s f1 t1).1 f2 t2).1) ops).2 := by
  refine ⟨rfl, ?_, ?_, ?_⟩
  · simp [on_new_sample_cb, stream_app_try_pull_sample, happ]
  · simp [on_new_sample_cb, stream_app_try_pull_sample, happ]
  · intro ops hops hmem
    rcases runSlotOps_take_sources ops _ f1 hmem with h1 | ⟨ts, h2⟩
    · simp only [on_new_sample_cb, Option.some.injEq] at h1
      exact hne h1.symm
    · exact hops ts h2

/-- C5 witness: the drop-oldest theorem evaluated on an empty slot with frames
1 and 2, following up with two pulls. -/
theorem frame_slot_drop_oldest_witness :
    (on_new_sample_cb
        (on_new_sample_cb (⟨true, none, 0, false⟩ : FrameSlotState Nat) 1 5).1 2 7).2 =
      some 1 ∧
    (stream_app_try_pull_sample
        ((on_new_sample_cb
          (on_new_sample_cb (⟨true, none, 0, false⟩ : FrameSlotState Nat) 1 5).1 2 7).1)).2 =
      some (2, 7) ∧
    (stream_app_try_pull_sample
        (stream_app_try_pull_sample
          ((on_new_sample_cb
            (on_new_sample_cb (⟨true, none, 0, false⟩ : FrameSlotState Nat) 1 5).1
            2 7).1)).1).2 = none ∧
    (1 : Nat) ∉
      (runSlotOps
        ((on_new_sample_cb
          (on_new_sample_cb (⟨true, none, 0, false⟩ : FrameSlotState Nat) 1 5).1 2 7).1)
        [SlotOp.tryPull, SlotOp.tryPull]).2 := by
  obtain ⟨h1, h2, h3, h4⟩ :=
    frame_slot_drop_oldest (⟨true, none, 0, false⟩ : FrameSlotState Nat) 1 2 5 7 rfl
      (by decide)
  exact ⟨h1, h2, h3, h4 _ (by intro ts; simp)⟩

/-! ## Claim C7 -/

/-- C7: pulling from an empty slot is a non-blocking no-op returning empty and
leaving the slot (and the whole state) unchanged, hence repeatable; and since a
successful pull clears the slot, two consecutive pulls with no intervening
publish never both return a frame. -/
theorem try_pull_empty_repeatable_and_clears {F : Type} (s : FrameSlotState F) :
    (s.sample = none → stream_app_try_pull_sample s = (s, none)) ∧
    ((stream_app_try_pull_sample s).2 = none ∨
      (stream_app_try_pull_sample (stream_app_try_pull_sample s).1).2 = none) := by
  constructor
  · intro h
    by_cases ha : s.appsink = false
    · simp [stream_app_try_pull_sample, ha]
    · cases s with
      | mk a smp ts ff =>
          simp only at h
          subst h
          simp [stream_app_try_pull_sample, ha]
  · by_cases ha : s.appsink = false
    · left
      simp [stream_app_try_pull_sample, ha]
    · cases hs : s.sample with
      | none => left; simp [stream_app_try_pull_sample, ha, hs]
      | some f => right; simp [stream_app_try_pull_sample, ha, hs]

/-- C7 witness: pulling twice from a concrete empty, set-up slot returns empty
both times and leaves the state unchanged. -/
theorem try_pull_empty_repeatable_and_clears_witness :
    (stream_app_try_pull_sample (⟨true, none, 0, false⟩ : FrameSlotState Nat) =
      ((⟨true, none, 0, false⟩ : FrameSlotState Nat), none)) ∧
    ((stream_app_try_pull_sample (⟨true, none, 0, false⟩ : FrameSlotState Nat)).2 = none ∨
      (stream_app_try_pull_sample
        (stream_app_try_pull_sample
          (⟨true, none, 0, false⟩ : FrameSlotState Nat)).1).2 = none) :=
  ⟨(try_pull_empty_repeatable_and_clears (⟨true, none, 0, false⟩ : FrameSlotState Nat)).1 rfl,
   (try_pull_empty_repeatable_and_clears (⟨true, none, 0, false⟩ : FrameSlotState Nat)).2⟩

/-! ## Claim C9 -/

/-- C9: for every pair of statuses, requesting the current status again is an
idempotent no-op that reports no change, and requesting a different status is
never rejected — the new status is always the requested one, reported as a
change. -/
theorem conn_update_status_idempotent_and_unrestricted :
    ∀ current requested : MyStatus,
      (requested = current → conn_update_status current requested = (current, false)) ∧
      (requested ≠ current → conn_update_status current requested = (requested, true)) := by
  decide

/-- C9 witness: the status-update contract evaluated at a same-status request
and at a differing request. -/
theorem conn_update_status_idempotent_and_unrestricted_witness :
    conn_update_status MyStatus.connecting MyStatus.connecting =
      (MyStatus.connecting, false) ∧
    conn_update_status MyStatus.idleNotConnected MyStatus.connecting =
      (MyStatus.connecting, true) :=
  ⟨(conn_update_status_idempotent_and_unrestricted MyStatus.connecting MyStatus.connecting).1
      rfl,
   (conn_update_status_idempotent_and_unrestricted MyStatus.idleNotConnected
      MyStatus.connecting).2 (by decide)⟩

/-! ## Connection lemmas -/

/-- `my_connection_disconnect` either hits undefined behaviour, or returns a
state whose status is idle together with an event list that starts with
`on-drop-pipeline` followed only by the websocket close and the status-change
log. -/
theorem my_connection_disconnect_shape (conn : MyConnection) :
    (∃ e, my_connection_disconnect conn = Except.error e) ∨
    (∃ c mid,
      my_connection_disconnect conn = Except.ok (c, ConnEvent.onDropPipeline :: mid) ∧
      c.status = MyStatus.idleNotConnected ∧
      ∀ e ∈ mid, e = ConnEvent.websocketClose ∨
        e = ConnEvent.statusSet MyStatus.idleNotConnected) := by
  simp only [my_connection_disconnect]
  have hmem : ∀ e : ConnEvent,
      e ∈ ((if conn.ws.isSome then [ConnEvent.websocketClose] else []) ++
          (if (conn_update_status conn.status MyStatus.idleNotConnected).2 then
            [ConnEvent.statusSet
              (conn_update_status conn.status MyStatus.idleNotConnected).1] else [])) →
      e = ConnEvent.websocketClose ∨
        e = ConnEvent.statusSet MyStatus.idleNotConnected := by
    intro e he
    rcases List.mem_append.mp he with h | h
    · left
      split at h <;> simp_all
    · right
      split at h <;> simp_all [conn_update_status_fst]
  split
  · split
    · exact Or.inl ⟨_, rfl⟩
    · split
      · exact Or.inl ⟨_, rfl⟩
      · exact Or.inr ⟨_, _, rfl, by simp [conn_update_status_fst], hmem⟩
  · exact Or.inr ⟨_, _, rfl, by simp [conn_update_status_fst], hmem⟩

/-- When the ENet resources are live (or were never created),
`my_connection_disconnect` succeeds, with the shape above. -/
theorem my_connection_disconnect_ok_of_live (conn : MyConnection)
    (hlive : conn.peer.isSome = true → conn.clientAlive = true ∧ conn.queueAlive = true) :
    ∃ c mid,
      my_connection_disconnect conn = Except.ok (c, ConnEvent.onDropPipeline :: mid) ∧
      c.status = MyStatus.idleNotConnected ∧
      ∀ e ∈ mid, e = ConnEvent.websocketClose ∨
        e = ConnEvent.statusSet MyStatus.idleNotConnected := by
  rcases my_connection_disconnect_shape conn with ⟨e, he⟩ | hok
  · exfalso
    simp only [my_connection_disconnect] at he
    split at he
    · obtain ⟨hc, hq⟩ := hlive (by assumption)
      split at he
      · simp_all
      · split at he
        · simp_all
        · cases he
    · cases he
  · exact hok

/-! ## Claim C3 -/

/-- C3 evaluation at the failing input (a fresh handle after `connect`, whose
websocket attempt completes with an error): the callback only emits
`websocket-failed` — it emits no pipeline-needed event — and the status field
is left at `MY_STATUS_CONNECTING`, because the transition to
`MY_STATUS_WEBSOCKET_FAILED` is commented out in the source; contrary to the
claim, the connection remains in Connecting. -/
theorem websocket_failure_keeps_status_connecting :
    statusAfter (my_connection_connect my_connection_init) = some MyStatus.connecting ∧
    eventsAfter
        (afterOk (my_connection_connect my_connection_init)
          (conn_websocket_connected_cb WsConnectResult.failure none)) =
      some [ConnEvent.websocketFailed] ∧
    statusAfter
        (afterOk (my_connection_connect my_connection_init)
          (conn_websocket_connected_cb WsConnectResult.failure none)) =
      some MyStatus.connecting := by
  decide

/-! ## Claim C4 -/

/-- C4 evaluation: on a never-connected handle, calling disconnect twice
completes without error and leaves the status idle; but after a `connect`, the
second of two consecutive disconnects re-enters the ENet teardown (the peer
pointer was never cleared) and commits a use-after-free on the destroyed host —
it is not a safe no-op. -/
theorem second_disconnect_after_connect_use_after_free :
    statusAfter
        (connStep (my_connection_disconnect my_connection_init) my_connection_disconnect) =
      some MyStatus.idleNotConnected ∧
    connStep (connStep (my_connection_connect my_connection_init) my_connection_disconnect)
        my_connection_disconnect =
      Except.error UB.peerOfDestroyedHost := by
  decide

/-! ## Claim C6 -/

/-- C6: when the websocket connect succeeds but the on-need-pipeline handler
attaches no pipeline, the client immediately disconnects: the call returns with
the status at idle (a disconnected state, not a negotiating/waiting one), the
drop-pipeline event fired, and the pipeline was never set to PLAYING. -/
theorem no_pipeline_after_ws_success_disconnects (conn : MyConnection)
    (hws : conn.ws = none) (hpipe : conn.pipeline = none)
    (hlive : conn.peer.isSome = true → conn.clientAlive = true ∧ conn.queueAlive = true) :
    ∃ c evs,
      conn_websocket_connected_cb WsConnectResult.success none conn = Except.ok (c, evs) ∧
      c.status = MyStatus.idleNotConnected ∧
      ConnEvent.onDropPipeline ∈ evs ∧
      ConnEvent.pipelineSetPlaying ∉ evs := by
  obtain ⟨c, mid, hok, hst, hmid⟩ :=
    my_connection_disconnect_ok_of_live { conn with ws := some (), pipeline := none }
      (fun h => hlive h)
  simp only [conn_websocket_connected_cb, hws, hpipe, Option.isSome_none, Bool.false_eq_true,
    if_false, Option.isNone_none, if_true]
  rw [hok]
  refine ⟨_, _, rfl, hst, ?_, ?_⟩
  · simp
  · intro hmem
    simp only [List.mem_cons] at hmem
    rcases hmem with h | h | h | h
    · cases h
    · cases h
    · cases h
    · rcases hmid _ h with h2 | h2 <;> cases h2

/-- C6 witness: the theorem applied at the concrete state a fresh handle is in
right after `my_connection_connect`, with the collaborator attaching nothing. -/
theorem no_pipeline_after_ws_success_disconnects_witness :
    ∃ c evs,
      conn_websocket_connected_cb WsConnectResult.success none
          (⟨some (), none, none, MyStatus.connecting, some (), true, some (), true, [],
            true⟩ : MyConnection) =
        Except.ok (c, evs) ∧
      c.status = MyStatus.idleNotConnected ∧
      ConnEvent.onDropPipeline ∈ evs ∧
      ConnEvent.pipelineSetPlaying ∉ evs :=
  no_pipeline_after_ws_success_disconnects _ rfl rfl (fun _ => ⟨rfl, rfl⟩)

/-! ## Claim C8 -/

/-- C8 evaluation: on a never-connected handle (no outbound queue yet) the
input command is silently dropped, and while connecting it is silently queued —
but after a disconnect that followed a connect, `my_connection_send_input_event`
pushes onto the destroyed packet queue (the pointer was never cleared): a
use-after-free, not a silent queue-or-drop. -/
theorem send_input_outcomes_and_use_after_free :
    (my_connection_send_input_event my_connection_init 4 10 20).map Prod.snd =
      Except.ok SendOutcome.dropped ∧
    (connAfter (my_connection_connect my_connection_init)).map
        (fun c => (my_connection_send_input_event c 4 10 20).map Prod.snd) =
      some (Except.ok SendOutcome.queued) ∧
    (connAfter
          (connStep (my_connection_connect my_connection_init) my_connection_disconnect)).map
        (fun c => (my_connection_send_input_event c 4 10 20).map Prod.snd) =
      some (Except.error UB.queuePushAfterFree) := by
  decide

/-! ## Claim C10 -/

/-- C10: every successful `my_connection_connect` first performs the full
disconnect of the prior session, and its event trace is exactly the
disconnect's trace — which begins with `on-drop-pipeline` — followed by the
websocket connect-async call and then the transition to Connecting; so the drop
event precedes both. -/
theorem connect_disconnects_first_and_emits_drop (conn c : MyConnection)
    (evs : List ConnEvent) (h : my_connection_connect conn = Except.ok (c, evs)) :
    ∃ dc mid,
      my_connection_disconnect conn = Except.ok (dc, ConnEvent.onDropPipeline :: mid) ∧
      evs = ConnEvent.onDropPipeline ::
        (mid ++ [ConnEvent.websocketConnectAsync, ConnEvent.statusSet MyStatus.connecting]) ∧
      ∀ e ∈ mid, e = ConnEvent.websocketClose ∨
        e = ConnEvent.statusSet MyStatus.idleNotConnected := by
  rcases my_connection_disconnect_shape conn with ⟨e, he⟩ | ⟨dc, mid, hok, hst, hmid⟩
  · rw [my_connection_connect, he] at h
    cases h
  · rw [my_connection_connect, hok] at h
    refine ⟨dc, mid, hok, ?_, hmid⟩
    simp only [conn_update_status, hst] at h
    simp only [Except.ok.injEq, Prod.mk.injEq] at h
    simp [← h.2]

/-- C10 witness: the very first connect of a never-connected handle — whose
pipeline field is still null — still emits the drop event first. -/
theorem connect_disconnects_first_and_emits_drop_witness :
    my_connection_init.pipeline = none ∧
    ∃ dc mid,
      my_connection_disconnect my_connection_init =
        Except.ok (dc, ConnEvent.onDropPipeline :: mid) ∧
      ([ConnEvent.onDropPipeline, ConnEvent.websocketConnectAsync,
          ConnEvent.statusSet MyStatus.connecting] : List ConnEvent) =
        ConnEvent.onDropPipeline ::
          (mid ++ [ConnEvent.websocketConnectAsync, ConnEvent.statusSet MyStatus.connecting]) ∧
      ∀ e ∈ mid, e = ConnEvent.websocketClose ∨
        e = ConnEvent.statusSet MyStatus.idleNotConnected :=
  ⟨rfl, connect_disconnects_first_and_emits_drop my_connection_init _ _ rfl⟩

end RStream
